import Mathlib

/-!
Shallow embedding of the record/upload control flow of the video-recorder
web application.

The embedded source is `src/components/VideoRecorder.tsx` (the Recorder
Controller: React state, the `startStream` / `startRecording` /
`stopRecording` / `handleUpload` callbacks and the recorder's
`ondataavailable` / `onstop` handlers) and `src/utils/supabaseClient.ts`
(storage-client initialization).

Environment outcomes that the browser or the network decide (device
acquisition success, recorder-construction success, storage-write result,
the generated UUID, the resolved public URL, arriving data segments) are
passed in as explicit parameters.  Binary blobs are modelled by their byte
length and MIME type; `new Blob(chunks, {type})` produces a blob whose
size is the sum of the chunk sizes.
-/

namespace VideoApp

/-- A binary blob: byte length plus MIME type (the two attributes the
component ever reads: `blob.size` and `blob.type`). -/
structure Blob where
  size : Nat
  type : String
deriving Repr, DecidableEq

/-- The `MediaRecorder` held in `mediaRecorderRef`: its `mimeType` and
whether it is still active (not yet stopped). -/
structure Recorder where
  mime : String
  active : Bool
deriving Repr, DecidableEq

/-- The component's mutable state: the four `useState` hooks
(`isRecording`, `videoBlob`, `statusMessage`, `uploading`) and the two
data-bearing refs (`recordedChunksRef`, `mediaRecorderRef`), plus whether
`videoRef.current.srcObject` currently holds a live stream. -/
structure ComponentState where
  isRecording : Bool
  videoBlob : Option Blob
  statusMessage : String
  uploading : Bool
  recordedChunks : List Blob
  mediaRecorder : Option Recorder
  streamPresent : Bool
deriving Repr, DecidableEq

/-- Initial values of the `useState` hooks and refs at mount. -/
def initialState : ComponentState :=
  { isRecording := false
    videoBlob := none
    statusMessage := "Ready to start recording."
    uploading := false
    recordedChunks := []
    mediaRecorder := none
    streamPresent := false }

/-- `startStream`, successful branch: `getUserMedia` resolved and the
stream was attached to the preview element. -/
def startStreamOk (s : ComponentState) : ComponentState :=
  { s with streamPresent := true
           statusMessage := "Camera stream active. Click Record." }

/-- `startStream`, catch branch: acquisition failed. -/
def startStreamErr (s : ComponentState) : ComponentState :=
  { s with statusMessage := "Error: Could not access camera and microphone." }

/-- The `options.mimeType` passed to the `MediaRecorder` constructor. -/
def mimeOption : String := "video/webm; codecs=vp8"

/-- Body of `startRecording`'s `try` block once a stream is in hand:
construct the recorder (success signalled by `ctorOk`), reset
`recordedChunksRef`, start, store the recorder, flip the state flags. -/
def startRecordingCtor (s : ComponentState) (ctorOk : Bool) : ComponentState :=
  if ctorOk then
    { s with recordedChunks := []
             mediaRecorder := some { mime := mimeOption, active := true }
             isRecording := true
             videoBlob := none
             statusMessage := "Recording..." }
  else
    { s with statusMessage := "Error starting recording. Try refreshing." }

/-- `startRecording`: if no stream is attached, retry acquisition
(outcome `acquireOk`); on acquisition failure return early, otherwise run
the recorder-construction block (outcome `ctorOk`). -/
def startRecording (s : ComponentState) (acquireOk ctorOk : Bool) : ComponentState :=
  if s.streamPresent then
    startRecordingCtor s ctorOk
  else
    let s1 := { s with statusMessage := "Stream not available. Retrying stream access..." }
    if acquireOk then startRecordingCtor (startStreamOk s1) ctorOk
    else startStreamErr s1

/-- The recorder's `ondataavailable` handler: append the arriving segment
to `recordedChunksRef` only when its size is positive. -/
def dataAvailable (s : ComponentState) (seg : Blob) : ComponentState :=
  if seg.size > 0 then
    { s with recordedChunks := s.recordedChunks ++ [seg] }
  else s

/-- `recorder.mimeType.split(';')[0]`: the characters before the first
`';'` (the whole string when none occurs). -/
def baseMimeOf (m : String) : String :=
  String.mk (m.data.takeWhile (fun c => c ≠ ';'))

/-- Total byte length of a list of chunks. -/
def sumSizes (chunks : List Blob) : Nat := (chunks.map Blob.size).sum

/-- `new Blob(recordedChunksRef.current, {type: mimeType})`: the finalized
artifact concatenates exactly the buffered segments. -/
def finalizedBlob (chunks : List Blob) (recorderMime : String) : Blob :=
  { size := sumSizes chunks, type := baseMimeOf recorderMime }

/-- The recorder's `onstop` handler: build the artifact from the buffered
chunks, publish it in `videoBlob`, leave the recording state, and stop
every track of the stream (the recorder object itself is now inactive).
The status text also reports the artifact size in megabytes; the numeric
formatting is elided here. -/
def stopFinalize (s : ComponentState) : ComponentState :=
  match s.mediaRecorder with
  | none => s
  | some r =>
      { s with videoBlob := some (finalizedBlob s.recordedChunks r.mime)
               isRecording := false
               statusMessage := "Recording finished. Ready to upload."
               streamPresent := false
               mediaRecorder := some { mime := r.mime, active := false } }

/-- `stopRecording`: guarded by `mediaRecorderRef.current && isRecording`;
when the guard holds, `recorder.stop()` fires `onstop`.  The boolean
reports whether the recorder was actually stopped. -/
def stopRecording (s : ComponentState) : ComponentState × Bool :=
  if s.mediaRecorder.isSome && s.isRecording then (stopFinalize s, true)
  else (s, false)

/-- Whether `pat` occurs at the start of `l`. -/
def hasPrefixChars : List Char → List Char → Bool
  | [], _ => true
  | _ :: _, [] => false
  | p :: ps, c :: cs => p = c && hasPrefixChars ps cs

/-- Whether `pat` occurs anywhere in `l`. -/
def hasSubstrChars (pat : List Char) : List Char → Bool
  | [] => pat.isEmpty
  | c :: cs => hasPrefixChars pat (c :: cs) || hasSubstrChars pat cs

/-- `s.includes(pat)` of JavaScript strings. -/
def containsStr (s pat : String) : Bool := hasSubstrChars pat.data s.data

/-- `videoBlob.type.includes('webm') ? 'webm' : 'mp4'`. -/
def extFor (t : String) : String :=
  if containsStr t "webm" then "webm" else "mp4"

/-- `` `${uuidv4()}.${fileExt}` ``: the generated object file name. -/
def fileNameFor (uuid t : String) : String := uuid ++ "." ++ extFor t

/-- `` `public_videos/${fileName}` ``: the storage path. -/
def filePathFor (uuid t : String) : String := "public_videos/" ++ fileNameFor uuid t

/-- The arguments of the single `supabase.storage.from(...).upload(...)`
call. -/
structure StorageRequest where
  bucket : String
  path : String
  blob : Blob
  cacheControl : String
  upsert : Bool
deriving Repr, DecidableEq

/-- Outcome of the storage write, decided by the storage service. -/
inductive StorageResult where
  | ok
  | err (msg : String)
deriving Repr, DecidableEq

/-- Observable side effects of one `handleUpload` run: the storage write
issued (if any), the `getPublicUrl` call issued (bucket and path, if any),
and whether `startStream()` was re-invoked at the end. -/
structure UploadEffects where
  request : Option StorageRequest
  publicUrlReq : Option (String × String)
  restartStream : Bool
deriving Repr, DecidableEq

def noVideoMsg : String := "No video to upload."

/-- First half of `handleUpload` after the guard: `setUploading(true)` and
the status update, before the `await`. -/
def uploadBegin (s : ComponentState) : ComponentState :=
  { s with uploading := true, statusMessage := "Uploading to Supabase..." }

/-- Second half of `handleUpload` (the `try`/`catch` around the storage
write), for the blob `b` captured by the closure: on success resolve the
public URL (`url` is what the client returns), report, clear `videoBlob`,
drop the uploading flag and restart the stream; on error report the
error's message and drop the uploading flag. -/
def uploadRest (s : ComponentState) (b : Blob) (uuid : String)
    (res : StorageResult) (url : String) : ComponentState × UploadEffects :=
  let fileName := fileNameFor uuid b.type
  let filePath := "public_videos/" ++ fileName
  let req : StorageRequest :=
    { bucket := "videos", path := filePath, blob := b
      cacheControl := "3600", upsert := false }
  match res with
  | .ok =>
      ({ s with statusMessage :=
                  "Upload successful! File: " ++ fileName ++ ". Public URL: " ++ url
                videoBlob := none
                uploading := false },
       { request := some req, publicUrlReq := some ("videos", filePath), restartStream := true })
  | .err m =>
      ({ s with statusMessage := "Upload failed: " ++ m, uploading := false },
       { request := some req, publicUrlReq := none, restartStream := false })

/-- `handleUpload` run to completion: reject when no artifact is present,
otherwise perform the write and handle its outcome. -/
def handleUpload (s : ComponentState) (uuid : String) (res : StorageResult)
    (url : String) : ComponentState × UploadEffects :=
  match s.videoBlob with
  | none =>
      ({ s with statusMessage := noVideoMsg },
       { request := none, publicUrlReq := none, restartStream := false })
  | some b => uploadRest (uploadBegin s) b uuid res url

/-- The spec's derived `ControllerState` enumeration. -/
inductive ControllerState where
  | Idle
  | StreamReady
  | Recording
  | Recorded
  | Uploading
deriving Repr, DecidableEq

/-- Whether a RecordingSession is active: the recorder ref holds a
not-yet-stopped recorder. -/
def sessionActive (s : ComponentState) : Bool :=
  match s.mediaRecorder with
  | some r => r.active
  | none => false

/-- Derived controller state: `Recording` while the recording flag is up;
`Uploading` is the transient sub-state of `Recorded` while an upload is in
flight; `Recorded` once an artifact is held; `StreamReady` with a live
stream and nothing recorded; `Idle` otherwise. -/
def stateOf (s : ComponentState) : ControllerState :=
  if s.isRecording then .Recording
  else if s.uploading then .Uploading
  else if s.videoBlob.isSome then .Recorded
  else if s.streamPresent then .StreamReady
  else .Idle

/-- The events that drive the component: completion of a `startStream`
call, a press of the record button, a press of the stop button, a segment
delivered by the recorder, a press of the upload button, and the
completion of an in-flight storage write (carrying the blob and uuid the
closure captured and the resolved url). -/
inductive Event where
  | streamResult (ok : Bool)
  | startRec (acquireOk ctorOk : Bool)
  | stopRec
  | segment (b : Blob)
  | uploadClick
  | uploadDone (b : Blob) (uuid : String) (res : StorageResult) (url : String)
deriving Repr, DecidableEq

/-- One step of the component: dispatch an event against the current
state.  A segment can only arrive from an active recorder, and an upload
completion only lands while an upload is in flight. -/
def stepFn (s : ComponentState) (e : Event) : ComponentState :=
  match e with
  | .streamResult true => startStreamOk s
  | .streamResult false => startStreamErr s
  | .startRec acquireOk ctorOk => startRecording s acquireOk ctorOk
  | .stopRec => (stopRecording s).1
  | .segment b => if sessionActive s then dataAvailable s b else s
  | .uploadClick =>
      match s.videoBlob with
      | none => { s with statusMessage := noVideoMsg }
      | some _ => uploadBegin s
  | .uploadDone b uuid res url =>
      if s.uploading then (uploadRest s b uuid res url).1 else s

/-- States reachable from mount by some sequence of events. -/
def Reachable (s : ComponentState) : Prop :=
  ∃ evs : List Event, s = evs.foldl stepFn initialState

/-- The state invariant of claim C4: `Recorded` and `Uploading` carry a
non-null artifact; `Recording` carries an active session and no
artifact. -/
def Inv (s : ComponentState) : Prop :=
  (stateOf s = .Recorded ∨ stateOf s = .Uploading → s.videoBlob ≠ none) ∧
  (stateOf s = .Recording → sessionActive s = true ∧ s.videoBlob = none)

/-! ### Storage-client initialization (`src/utils/supabaseClient.ts`) -/

/-- The created storage client (the two configuration values it wraps). -/
structure SupabaseClient where
  url : String
  key : String
deriving Repr, DecidableEq

/-- A configuration value read from the environment: absent (`undefined`)
or a string.  An empty string is falsy in the source's `!` check. -/
def isFalsyEnv : Option String → Bool
  | none => true
  | some v => v = ""

/-- Module top level of `supabaseClient.ts`: throw when either value is
missing, otherwise `createClient(supabaseUrl, supabaseAnonKey)`. -/
def initSupabase (url key : Option String) : Except String SupabaseClient :=
  if isFalsyEnv url || isFalsyEnv key then
    .error "Missing Supabase URL or Anon Key environment variables"
  else
    .ok { url := url.getD "", key := key.getD "" }

/-- A StreamReady state used to instantiate witnesses: the stream was
acquired right after mount. -/
def readyState : ComponentState := startStreamOk initialState

/-- A mid-recording state reached from mount: acquire the stream, start
recording, receive one 1024-byte segment. -/
def recState : ComponentState :=
  List.foldl stepFn initialState
    [.streamResult true, .startRec true true, .segment { size := 1024, type := "video/webm" }]

/-- A Recorded state used to instantiate witnesses: `recState` after the
stop button. -/
def recordedState : ComponentState := stepFn recState .stopRec

/-! ### Helper lemmas -/

theorem baseMime_of_option : baseMimeOf mimeOption = "video/webm" := by decide

/-- Delivering a list of positive-size segments appends exactly those
segments to the chunk buffer and changes nothing else. -/
theorem foldl_dataAvailable (segs : List Blob) :
    ∀ s : ComponentState, (∀ b ∈ segs, 0 < b.size) →
      List.foldl dataAvailable s segs =
        { s with recordedChunks := s.recordedChunks ++ segs } := by
  induction segs with
  | nil => intro s _; simp
  | cons b bs ih =>
      intro s h
      have hb : 0 < b.size := h b (by simp)
      have hbs : ∀ x ∈ bs, 0 < x.size := fun x hx => h x (by simp [hx])
      simp only [List.foldl_cons, dataAvailable, hb, if_pos]
      rw [ih _ hbs]
      simp

/-- Field-level reading of the invariant `Inv`. -/
theorem Inv_iff (s : ComponentState) :
    Inv s ↔
      ((s.isRecording = true → sessionActive s = true ∧ s.videoBlob = none) ∧
       (s.isRecording = false → s.uploading = true → s.videoBlob ≠ none)) := by
  obtain ⟨ir, vb, sm, up, ch, mr, sp⟩ := s
  unfold Inv stateOf
  cases ir <;> cases up <;> cases vb <;> cases sp <;> simp [sessionActive]

theorem inv_stepFn (s : ComponentState) (e : Event) (h : Inv s) : Inv (stepFn s e) := by
  rw [Inv_iff] at h ⊢
  obtain ⟨h1, h2⟩ := h
  cases e with
  | streamResult ok =>
      cases ok <;>
        simp_all [stepFn, startStreamOk, startStreamErr, sessionActive]
  | startRec a c =>
      obtain ⟨ir, vb, sm, up, ch, mr, sp⟩ := s
      cases sp <;> cases a <;> cases c <;>
        simp_all [stepFn, startRecording, startRecordingCtor, startStreamOk,
          startStreamErr, sessionActive]
  | stopRec =>
      obtain ⟨ir, vb, sm, up, ch, mr, sp⟩ := s
      cases ir <;> cases mr <;>
        simp_all [stepFn, stopRecording, stopFinalize, sessionActive]
  | segment b =>
      obtain ⟨ir, vb, sm, up, ch, mr, sp⟩ := s
      simp only [stepFn, dataAvailable]
      split
      · split <;> simp_all [sessionActive]
      · exact ⟨h1, h2⟩
  | uploadClick =>
      obtain ⟨ir, vb, sm, up, ch, mr, sp⟩ := s
      cases vb <;> simp_all [stepFn, uploadBegin, sessionActive]
  | uploadDone b uuid res url =>
      obtain ⟨ir, vb, sm, up, ch, mr, sp⟩ := s
      cases up <;> cases res <;>
        simp_all [stepFn, uploadRest, sessionActive]

theorem inv_foldl (evs : List Event) :
    ∀ s : ComponentState, Inv s → Inv (List.foldl stepFn s evs) := by
  induction evs with
  | nil => intro s h; simpa using h
  | cons e es ih => intro s h; exact ih _ (inv_stepFn s e h)

/-! ### Claims -/

/-- C1: starting a recording and then stopping it after N non-empty
segment deliveries stops the recorder and yields exactly one
RecordedArtifact (the single `videoBlob` slot is filled) whose byte
length is the sum of the N segment lengths, with the base MIME type of
the declared encoding. -/
theorem record_session_artifact (s : ComponentState) (segs : List Blob)
    (hs : s.streamPresent = true) (hpos : ∀ b ∈ segs, 0 < b.size) :
    (stopRecording (List.foldl dataAvailable (startRecording s true true) segs)).2 = true ∧
    (stopRecording (List.foldl dataAvailable (startRecording s true true) segs)).1.videoBlob
      = some { size := (segs.map Blob.size).sum, type := "video/webm" } := by
  have h1 : startRecording s true true =
      { s with recordedChunks := []
               mediaRecorder := some { mime := mimeOption, active := true }
               isRecording := true
               videoBlob := none
               statusMessage := "Recording..." } := by
    simp [startRecording, startRecordingCtor, hs]
  rw [h1, foldl_dataAvailable segs _ hpos]
  simp [stopRecording, stopFinalize, finalizedBlob, sumSizes, baseMime_of_option]

/-- Witness for C1: two segments of 4096 and 8192 bytes produce a
12288-byte artifact. -/
theorem record_session_artifact_witness :
    (stopRecording (List.foldl dataAvailable (startRecording readyState true true)
        [{ size := 4096, type := "video/webm" }, { size := 8192, type := "video/webm" }])).2
      = true ∧
    (stopRecording (List.foldl dataAvailable (startRecording readyState true true)
        [{ size := 4096, type := "video/webm" }, { size := 8192, type := "video/webm" }])).1.videoBlob
      = some { size := 12288, type := "video/webm" } := by
  exact record_session_artifact readyState
    [{ size := 4096, type := "video/webm" }, { size := 8192, type := "video/webm" }]
    rfl (by decide)

/-- C2: an upload attempt started with a non-null artifact: on storage
success the artifact is cleared, `startStream` is re-invoked, and once
that acquisition lands the controller is back in `StreamReady`; on
storage failure the artifact is retained, the controller state is
`Recorded`, and the status message carries the storage error message. -/
theorem upload_outcomes (s : ComponentState) (b : Blob) (uuid url m : String)
    (hb : s.videoBlob = some b) (hr : s.isRecording = false) :
    ((handleUpload s uuid .ok url).1.videoBlob = none ∧
     (handleUpload s uuid .ok url).2.restartStream = true ∧
     stateOf (startStreamOk (handleUpload s uuid .ok url).1) = .StreamReady) ∧
    ((handleUpload s uuid (.err m) url).1.videoBlob = some b ∧
     stateOf (handleUpload s uuid (.err m) url).1 = .Recorded ∧
     (handleUpload s uuid (.err m) url).1.statusMessage = "Upload failed: " ++ m) := by
  simp [handleUpload, hb, uploadRest, uploadBegin, startStreamOk, stateOf, hr]

/-- Witness for C2 at a concrete Recorded state. -/
theorem upload_outcomes_witness :
    ((handleUpload recordedState "id0" .ok "http://u").1.videoBlob = none ∧
     (handleUpload recordedState "id0" .ok "http://u").2.restartStream = true ∧
     stateOf (startStreamOk (handleUpload recordedState "id0" .ok "http://u").1)
       = .StreamReady) ∧
    ((handleUpload recordedState "id0" (.err "bucket missing") "http://u").1.videoBlob
       = some { size := 1024, type := "video/webm" } ∧
     stateOf (handleUpload recordedState "id0" (.err "bucket missing") "http://u").1
       = .Recorded ∧
     (handleUpload recordedState "id0" (.err "bucket missing") "http://u").1.statusMessage
       = "Upload failed: " ++ "bucket missing") := by
  exact upload_outcomes recordedState { size := 1024, type := "video/webm" }
    "id0" "http://u" "bucket missing" (by decide) (by decide)

/-- C3 counterexample: a concrete reachable `Recording` state on which
`startRecording` is not rejected — it changes the state (the segment
buffer is reset and a fresh recorder is installed). -/
theorem start_while_recording_cex :
    stateOf recState = .Recording ∧ startRecording recState true true ≠ recState := by
  decide

/-- C3 amended: invoking `startRecording` while already `Recording` (with
the stream still attached and recorder construction succeeding) is not
rejected: it resets the segment buffer, discards any artifact, installs a
fresh active recorder and stays in `Recording`, superseding the current
session. -/
theorem start_while_recording (s : ComponentState) (a : Bool)
    (_h : stateOf s = .Recording) (hs : s.streamPresent = true) :
    (startRecording s a true).isRecording = true ∧
    sessionActive (startRecording s a true) = true ∧
    (startRecording s a true).recordedChunks = [] ∧
    (startRecording s a true).videoBlob = none := by
  simp [startRecording, startRecordingCtor, hs, sessionActive]

/-- Witness for the amended C3 at the concrete `Recording` state. -/
theorem start_while_recording_witness :
    (startRecording recState true true).isRecording = true ∧
    sessionActive (startRecording recState true true) = true ∧
    (startRecording recState true true).recordedChunks = [] ∧
    (startRecording recState true true).videoBlob = none := by
  exact start_while_recording recState true (by decide) (by decide)

/-- C4: every state reachable from mount satisfies the invariant
(`Recorded`/`Uploading` carry a non-null artifact, `Recording` carries an
active session and no artifact), and every operation preserves it. -/
theorem controller_invariant :
    (∀ s, Reachable s → Inv s) ∧ ∀ s e, Inv s → Inv (stepFn s e) := by
  refine ⟨?_, inv_stepFn⟩
  rintro s ⟨evs, rfl⟩
  exact inv_foldl evs initialState (by rw [Inv_iff]; exact ⟨by decide, by decide⟩)

/-- Witness for C4: the invariant at a concrete reachable state. -/
theorem controller_invariant_witness :
    Inv (stepFn initialState (.streamResult true)) :=
  controller_invariant.2 initialState (.streamResult true)
    (controller_invariant.1 initialState ⟨[], rfl⟩)

/-- C5: with an artifact present, the upload issues exactly one write,
whose object name is the supplied random identifier followed by `webm`
when the artifact's MIME type contains "webm" and `mp4` otherwise (under
the fixed `public_videos/` path), with `upsert := false`, to the bucket
`"videos"`; on success the public URL of that same object is resolved,
and on failure it is not. -/
theorem upload_request_shape (s : ComponentState) (b : Blob) (uuid url : String)
    (res : StorageResult) (hb : s.videoBlob = some b) :
    (handleUpload s uuid res url).2.request =
      some { bucket := "videos"
             path := "public_videos/" ++ fileNameFor uuid b.type
             blob := b
             cacheControl := "3600"
             upsert := false } ∧
    fileNameFor uuid b.type = uuid ++ "." ++ extFor b.type ∧
    (containsStr b.type "webm" = true → extFor b.type = "webm") ∧
    (containsStr b.type "webm" = false → extFor b.type = "mp4") ∧
    (res = .ok →
      (handleUpload s uuid res url).2.publicUrlReq =
        some ("videos", "public_videos/" ++ fileNameFor uuid b.type)) ∧
    (∀ m, res = .err m → (handleUpload s uuid res url).2.publicUrlReq = none) := by
  cases res <;>
    simp [handleUpload, hb, uploadRest, uploadBegin, fileNameFor, filePathFor, extFor]

/-- Witness for C5 with a webm artifact. -/
theorem upload_request_shape_witness :
    (handleUpload recordedState "id1" .ok "http://u").2.request =
      some { bucket := "videos"
             path := "public_videos/" ++ fileNameFor "id1" "video/webm"
             blob := { size := 1024, type := "video/webm" }
             cacheControl := "3600"
             upsert := false } ∧
    fileNameFor "id1" "video/webm" = "id1" ++ "." ++ extFor "video/webm" ∧
    (containsStr "video/webm" "webm" = true → extFor "video/webm" = "webm") ∧
    (containsStr "video/webm" "webm" = false → extFor "video/webm" = "mp4") ∧
    (StorageResult.ok = .ok →
      (handleUpload recordedState "id1" .ok "http://u").2.publicUrlReq =
        some ("videos", "public_videos/" ++ fileNameFor "id1" "video/webm")) ∧
    (∀ m, StorageResult.ok = .err m →
      (handleUpload recordedState "id1" .ok "http://u").2.publicUrlReq = none) := by
  exact upload_request_shape recordedState { size := 1024, type := "video/webm" }
    "id1" "http://u" .ok (by decide)

/-- C6: `handleUpload` with no artifact present sets the status message
and does nothing else: no storage write, no public-URL resolution, no
stream restart, and every other state field is unchanged. -/
theorem upload_no_artifact (s : ComponentState) (uuid url : String)
    (res : StorageResult) (hb : s.videoBlob = none) :
    (handleUpload s uuid res url).1 = { s with statusMessage := noVideoMsg } ∧
    (handleUpload s uuid res url).2 =
      { request := none, publicUrlReq := none, restartStream := false } := by
  simp [handleUpload, hb]

/-- Witness for C6 at the initial state. -/
theorem upload_no_artifact_witness :
    (handleUpload initialState "id2" .ok "http://u").1 =
      { initialState with statusMessage := noVideoMsg } ∧
    (handleUpload initialState "id2" .ok "http://u").2 =
      { request := none, publicUrlReq := none, restartStream := false } := by
  exact upload_no_artifact initialState "id2" "http://u" .ok (by decide)

/-- C7: `stopRecording` outside the `Recording` state is a no-op: the
state is returned unchanged and the recorder is not stopped. -/
theorem stop_not_recording (s : ComponentState) (h : stateOf s ≠ .Recording) :
    stopRecording s = (s, false) := by
  have hr : s.isRecording = false := by
    cases hir : s.isRecording with
    | false => rfl
    | true => exact absurd (by simp [stateOf, hir]) h
  simp [stopRecording, hr]

/-- Witness for C7 at a Recorded state. -/
theorem stop_not_recording_witness :
    stopRecording recordedState = (recordedState, false) :=
  stop_not_recording recordedState (by decide)

/-- C8: finalizing with zero buffered segments produces a zero-length
artifact whose MIME type is the base of the recorder's declared encoding
(for the declared option, `"video/webm"`); no branch special-cases the
empty buffer. -/
theorem stop_zero_segments (s : ComponentState) (r : Recorder)
    (hm : s.mediaRecorder = some r) (hc : s.recordedChunks = []) :
    (stopFinalize s).videoBlob = some { size := 0, type := baseMimeOf r.mime } ∧
    baseMimeOf mimeOption = "video/webm" := by
  refine ⟨?_, baseMime_of_option⟩
  simp [stopFinalize, hm, hc, finalizedBlob, sumSizes]

/-- Witness for C8: stopping right after starting (no segments yet). -/
theorem stop_zero_segments_witness :
    (stopFinalize (startRecording readyState true true)).videoBlob =
      some { size := 0, type := baseMimeOf mimeOption } ∧
    baseMimeOf mimeOption = "video/webm" :=
  stop_zero_segments (startRecording readyState true true)
    { mime := mimeOption, active := true } (by decide) (by decide)

/-- C9: storage-client initialization throws when either configuration
value is absent (no client is created), and creates a client when both
are present (non-falsy). -/
theorem supabase_init (url key : Option String) :
    ((url = none ∨ key = none) →
      initSupabase url key =
        .error "Missing Supabase URL or Anon Key environment variables") ∧
    (isFalsyEnv url = false → isFalsyEnv key = false →
      initSupabase url key = .ok { url := url.getD "", key := key.getD "" }) := by
  constructor
  · rintro (rfl | rfl) <;> simp [initSupabase, isFalsyEnv]
  · intro hu hk
    simp [initSupabase, hu, hk]

/-- Witness for C9: a missing key is fatal; both values present yields a
client. -/
theorem supabase_init_witness :
    (initSupabase (some "https://example.supabase.co") none =
      .error "Missing Supabase URL or Anon Key environment variables") ∧
    (initSupabase (some "https://example.supabase.co") (some "anon-key") =
      .ok { url := "https://example.supabase.co", key := "anon-key" }) :=
  ⟨(supabase_init (some "https://example.supabase.co") none).1 (Or.inr rfl),
   (supabase_init (some "https://example.supabase.co") (some "anon-key")).2 rfl rfl⟩

/-- C10: whenever `startRecording` succeeds in constructing a recorder
(the stream is present, or was just re-acquired), it discards any
previously retained artifact and empties the segment buffer, entering
the recording state with a fresh active session. -/
theorem start_resets_buffer (s : ComponentState) (a : Bool)
    (h : s.streamPresent = true ∨ a = true) :
    (startRecording s a true).videoBlob = none ∧
    (startRecording s a true).recordedChunks = [] ∧
    (startRecording s a true).isRecording = true ∧
    sessionActive (startRecording s a true) = true := by
  rcases h with h | h <;>
    cases hsp : s.streamPresent <;>
      simp_all [startRecording, startRecordingCtor, startStreamOk, sessionActive]

/-- Witness for C10 at a Recorded state holding a previous artifact and
stale chunks. -/
theorem start_resets_buffer_witness :
    (startRecording recordedState true true).videoBlob = none ∧
    (startRecording recordedState true true).recordedChunks = [] ∧
    (startRecording recordedState true true).isRecording = true ∧
    sessionActive (startRecording recordedState true true) = true :=
  start_resets_buffer recordedState true (Or.inr rfl)

end VideoApp
